import Mathlib

/-!
Verification development for `bin/process_polis_data.py`.

The script reads a participants-votes table and a comments table, coerces the
id columns to integers, drops vote rows whose `group-id` is null, melts the
wide vote matrix to long form, counts votes per (comment-id, group-id) pair,
widens the counts into `group-{g}-{kind}-count` columns, inner-merges them
onto the comments table, and recomputes the `agrees`/`disagrees`/`passes`
totals from the per-group columns.

The embedding below follows the pandas operations of the source line by line:

* A table cell is `Val := Option ℤ`; `none` models a NaN/missing cell, and
  `vadd` models float addition with NaN propagation.
* `RawId` models a raw id cell before `astype(int)`: `val n` is a value that
  pandas coerces to the integer `n`, `missing` is NaN (dropped by `notna`,
  rejected by `astype`), `bad` is a value on which `astype(int)` raises.
* `meltVotes` models `votes.melt(id_vars=["group-id"], value_vars=comment_ids)`
  (NaN cells are kept by `melt`; they are dropped later by `value_counts`).
* `widen` models lines 72-78: `result.pivot` followed by the `for_merge`
  construction.  `pivoted['disagree-count'][0.0]` raises a KeyError unless a
  disagree vote was observed somewhere and group `0` cast at least one vote;
  `pivoted[count_col][group_id]` likewise requires the vote kind and the group
  to be observed.  A (comment, group) pair absent from the grouped counts
  pivots to NaN, not 0 (`unstack(fill_value=0)` only densifies the value level
  inside an observed pair).  Assigning the pivoted series (indexed by
  comment-id) into `for_merge` (indexed by position 0..n-1) aligns on index
  labels, which `alignedCell` reproduces.
* `mergeInner` models `comments.merge(for_merge, on='comment-id')` (default
  inner join, left row order preserved).
* `accumulate` models the final column-wise `+=` loops over `group_ids`.

Errors raised by the script (uncaught exceptions terminating the process
before any output is written) are modelled by `Except.error`.
-/

namespace Polis

/-- A table cell: `none` is a NaN / missing value. -/
abbrev Val := Option ℤ

/-- A raw id cell before `astype(int)`: `val n` coerces to `n`, `missing` is
NaN, `bad` is a value on which `astype(int)` raises. -/
inductive RawId where
  | val (n : ℤ)
  | missing
  | bad
deriving DecidableEq, Repr

/-- `pd.notna`: only NaN is null. -/
def RawId.isNA : RawId → Bool
  | .missing => true
  | _ => false

/-- `astype(int)` on one cell: `some n` on success, `none` when pandas raises. -/
def RawId.toInt? : RawId → Option ℤ
  | .val n => some n
  | _ => none

/-- One row of the participants-votes table: its `group-id` cell and the cell
under each named column (metadata columns are ignored by the melt). -/
structure VRow where
  groupId : RawId
  cell : String → Val

/-- The participants-votes table: its column names (besides `group-id`) and rows. -/
structure VotesTable where
  cols : List String
  rows : List VRow

/-- One row of the comments table before id coercion.  Fields other than
`comment-id` and `comment-body` are passthrough and not modelled. -/
structure CommentRowIn where
  commentId : RawId
  text : String
  agrees : Val
  disagrees : Val
  passes : Val
deriving DecidableEq, Repr

/-- The comments table. -/
structure CommentsTable where
  rows : List CommentRowIn
deriving DecidableEq, Repr

/-- A comments row after `comments['comment-id'].astype(int)`. -/
structure CRow where
  commentId : ℤ
  text : String
  agrees : Val
  disagrees : Val
  passes : Val
deriving DecidableEq, Repr

/-- Line 42: `comments['comment-id'] = comments['comment-id'].astype(int)`.
`astype` raises (the whole script dies) if any value is not coercible. -/
def coerceComments : List CommentRowIn → Except String (List CRow)
  | [] => .ok []
  | r :: rs =>
    match r.commentId.toInt? with
    | none => .error "ValueError: invalid literal for comment-id astype(int)"
    | some n =>
      match coerceComments rs with
      | .error e => .error e
      | .ok tl => .ok ({ commentId := n, text := r.text, agrees := r.agrees,
                         disagrees := r.disagrees, passes := r.passes } :: tl)

/-- Line 46: `votes = votes[votes['group-id'].notna()]`. -/
def filterVotes (rows : List VRow) : List VRow :=
  rows.filter (fun r => !r.groupId.isNA)

/-- A vote row after `votes['group-id'].astype(int)`: its integer group id and
its cells. -/
abbrev GVRow := ℤ × (String → Val)

/-- Line 47: `votes['group-id'] = votes['group-id'].astype(int)` on the
surviving rows; raises if any surviving value is not coercible. -/
def coerceVotes : List VRow → Except String (List GVRow)
  | [] => .ok []
  | r :: rs =>
    match r.groupId.toInt? with
    | none => .error "ValueError: invalid literal for group-id astype(int)"
    | some g =>
      match coerceVotes rs with
      | .error e => .error e
      | .ok tl => .ok ((g, r.cell) :: tl)

/-- Line 48: `votes['group-id'].unique()` — first-occurrence order, no duplicates. -/
def uniqueFirst (l : List ℤ) : List ℤ :=
  l.foldl (fun acc x => if x ∈ acc then acc else acc ++ [x]) []

/-- Line 52: the regex `^\d+$` on a column name. -/
def isNumericStr (s : String) : Bool :=
  !s.isEmpty && s.toList.all Char.isDigit

/-- Numeric value of a purely-digit column name (what
`melted_votes['comment-id'].astype(int)` produces for that column). -/
def natOfDigits (s : String) : ℕ :=
  s.toList.foldl (fun n c => 10 * n + (c.toNat - 48)) 0

/-- One row of the melted long-form table: `(group-id, comment-id, value)`.
The value may be NaN — `melt` keeps NaN cells. -/
structure MeltEntry where
  groupId : ℤ
  commentId : ℤ
  value : Val
deriving DecidableEq, Repr

/-- Line 57: `votes.melt(id_vars=["group-id"], value_vars=comment_ids, ...)`
followed by `astype(int)` on the melted comment-id column. -/
def meltVotes (cids : List String) (gv : List GVRow) : List MeltEntry :=
  cids.flatMap fun col =>
    gv.map fun p =>
      { groupId := p.1, commentId := (natOfDigits col : ℤ), value := p.2 col }

/-- Whether the vote value `v` occurs anywhere in the melted table — i.e.
whether `value_counts().unstack()` creates a column for `v`, and hence whether
the renamed count column for `v` exists at all. -/
def occursVal (m : List MeltEntry) (v : ℤ) : Bool :=
  m.any fun e => decide (e.value = some v)

/-- Whether group `g` cast at least one (non-NaN) vote — i.e. whether `g`
appears in the grouped counts and hence as a column level of the pivot. -/
def observedGroup (m : List MeltEntry) (g : ℤ) : Bool :=
  m.any fun e => decide (e.groupId = g ∧ e.value.isSome)

/-- Whether the `(comment-id, group-id)` pair has at least one (non-NaN) vote —
i.e. whether the pair appears in the grouped `value_counts` result. -/
def observedPair (m : List MeltEntry) (c g : ℤ) : Bool :=
  m.any fun e => decide (e.commentId = c ∧ e.groupId = g ∧ e.value.isSome)

/-- Number of votes of value `v` for the `(comment-id, group-id)` pair: one
cell of the grouped `value_counts` result. -/
def countVal (m : List MeltEntry) (c g v : ℤ) : ℕ :=
  m.countP fun e => decide (e.commentId = c ∧ e.groupId = g ∧ e.value = some v)

/-- Insert into a sorted list (ascending). -/
def insertSorted (x : ℤ) : List ℤ → List ℤ
  | [] => [x]
  | y :: ys => if x ≤ y then x :: y :: ys else y :: insertSorted x ys

/-- Insertion sort, ascending. -/
def sortInts (l : List ℤ) : List ℤ :=
  l.foldr insertSorted []

/-- Comment ids carrying at least one (non-NaN) vote from any group. -/
def votedIds (m : List MeltEntry) : List ℤ :=
  (m.filter (fun e => e.value.isSome)).map (fun e => e.commentId)

/-- The pivot's row index (line 72): the distinct comment ids appearing in the
grouped counts, ascending — also the index of
`pivoted['disagree-count'][0.0]`, hence the `comment-id` column of `for_merge`. -/
def sortedIds (m : List MeltEntry) : List ℤ :=
  sortInts (uniqueFirst (votedIds m))

/-- One cell of the pivoted frame, at row label `c` and column `(kind v, g)`:
the pair's count where the pair was observed, NaN where `pivot` filled the
hole (`unstack(fill_value=0)` never sees pairs with no votes at all). -/
def pivotCell (m : List MeltEntry) (c g v : ℤ) : Val :=
  if observedPair m c g then some (countVal m c g v) else none

/-- The value landing in `for_merge` at position `i` for column `(kind v, g)`:
`for_merge[...] = pivoted[count_col][group_id]` aligns the assigned series
(indexed by comment-id labels) with `for_merge`'s RangeIndex `0..n-1`, so
position `i` receives the series value at label `i` — NaN when no comment has
id `i`. -/
def alignedCell (m : List MeltEntry) (i : ℕ) (g v : ℤ) : Val :=
  if (i : ℤ) ∈ sortedIds m then pivotCell m (i : ℤ) g v else none

/-- The three count cells of one group inside a widened row. -/
structure GroupCount where
  groupId : ℤ
  disagree : Val
  pass : Val
  agree : Val
deriving DecidableEq, Repr

/-- One row of `for_merge`: a comment id and, for each discovered group id in
order, its three count cells. -/
structure FMRow where
  commentId : ℤ
  counts : List GroupCount
deriving DecidableEq, Repr

/-- The `for_merge` rows (lines 75-78), assuming every column access succeeded. -/
def buildFM (m : List MeltEntry) (gids : List ℤ) : List FMRow :=
  (sortedIds m).enum.map fun p =>
    { commentId := p.2,
      counts := gids.map fun g =>
        { groupId := g,
          disagree := alignedCell m p.1 g (-1),
          pass := alignedCell m p.1 g 0,
          agree := alignedCell m p.1 g 1 } }

/-- Lines 72-78: build `for_merge`.  `pivoted['disagree-count'][0.0]` raises a
KeyError unless some disagree vote exists (else there is no `disagree-count`
column) and group `0` cast some vote (else the pivot has no column for label
`0.0`); each loop access `pivoted[count_col][group_id]` likewise requires the
vote kind and the group to be observed. -/
def widen (m : List MeltEntry) (gids : List ℤ) : Except String (List FMRow) :=
  if occursVal m (-1) then
    if observedGroup m 0 then
      if gids.all (fun g => observedGroup m g) &&
          (gids.isEmpty || (occursVal m 0 && occursVal m 1)) then
        .ok (buildFM m gids)
      else .error "KeyError: missing count column in for_merge loop"
    else .error "KeyError: 0.0"
  else .error "KeyError: disagree-count"

/-- One row of the merged output table. -/
structure MRow where
  commentId : ℤ
  text : String
  agrees : Val
  disagrees : Val
  passes : Val
  counts : List GroupCount
deriving DecidableEq, Repr

/-- Joining one comments row with one `for_merge` row. -/
def combineRows (c : CRow) (f : FMRow) : MRow :=
  { commentId := c.commentId, text := c.text, agrees := c.agrees,
    disagrees := c.disagrees, passes := c.passes, counts := f.counts }

/-- Lines 81-83: `comments["agrees"] = 0` etc. — the stale totals are zeroed
unconditionally before the merge. -/
def zeroComments (cs : List CRow) : List CRow :=
  cs.map fun c => { c with agrees := some 0, disagrees := some 0, passes := some 0 }

/-- Line 86: `comments.merge(for_merge, on='comment-id')` — pandas' default
`how='inner'`, keeping the left frame's key order. -/
def mergeInner (cs : List CRow) (fms : List FMRow) : List MRow :=
  cs.flatMap fun c =>
    (fms.filter (fun f => decide (f.commentId = c.commentId))).map (combineRows c)

/-- Float addition of two cells: NaN absorbs. -/
def vadd : Val → Val → Val
  | some a, some b => some (a + b)
  | _, _ => none

/-- Left fold of `vadd`: the value a cell holds after successive `+=`. -/
def vFold (init : Val) (l : List Val) : Val :=
  l.foldl vadd init

/-- Vote kinds, in the order of the `for_merge` loop column triple. -/
inductive VKind where
  | disagree
  | pass
  | agree
deriving DecidableEq, Repr

/-- Reading the `group-{g}-{kind}-count` cell of a row: the entry for `g` in
its counts list. -/
def countAt (counts : List GroupCount) (g : ℤ) (k : VKind) : Val :=
  match counts.find? (fun c => decide (c.groupId = g)) with
  | some c =>
    match k with
    | .disagree => c.disagree
    | .pass => c.pass
    | .agree => c.agree
  | none => none

/-- One iteration of the accumulation loop body (lines 89-92) for group `g`,
applied to one row. -/
def addG (g : ℤ) (r : MRow) : MRow :=
  { r with disagrees := vadd r.disagrees (countAt r.counts g .disagree),
           agrees := vadd r.agrees (countAt r.counts g .agree),
           passes := vadd r.passes (countAt r.counts g .pass) }

/-- Lines 89-92: for each group id, add its three count columns into the
total columns, column-wise over the whole merged frame. -/
def accumulate (gids : List ℤ) (rows : List MRow) : List MRow :=
  gids.foldl (fun rs g => rs.map (addG g)) rows

/-- The output column names in order: the comments columns (with
`comment-body` renamed to `comment_text`), the zeroed totals, then the
widened columns in loop order. -/
def outCols (gids : List ℤ) : List String :=
  ["comment-id", "comment_text", "agrees", "disagrees", "passes"] ++
    gids.flatMap fun g =>
      ["group-" ++ toString g ++ "-disagree-count",
       "group-" ++ toString g ++ "-pass-count",
       "group-" ++ toString g ++ "-agree-count"]

/-- The output table: the discovered group ids, the column names and the rows. -/
structure Output where
  groupIds : List ℤ
  colNames : List String
  rows : List MRow
deriving DecidableEq, Repr

/-- Lines 46-57: filter and coerce the vote rows, discover the group ids
(`unique()`, first-occurrence order) and melt the matrix over the
numerically-named columns. -/
def normalizeVotes (v : VotesTable) : Except String (List ℤ × List MeltEntry) :=
  match coerceVotes (filterVotes v.rows) with
  | .error e => .error e
  | .ok gv => .ok (uniqueFirst (gv.map Prod.fst),
                   meltVotes (v.cols.filter isNumericStr) gv)

/-- The widening stage run from the raw votes table. -/
def widenFromTable (v : VotesTable) : Except String (List FMRow) :=
  match normalizeVotes v with
  | .error e => .error e
  | .ok p => widen p.2 p.1

/-- The whole script, from the two in-memory input tables to the output table
(`Except.error` models an uncaught exception killing the process before any
output is written). -/
def pipeline (v : VotesTable) (ct : CommentsTable) : Except String Output :=
  match coerceComments ct.rows with
  | .error e => .error e
  | .ok cs =>
    match normalizeVotes v with
    | .error e => .error e
    | .ok p =>
      match widen p.2 p.1 with
      | .error e => .error e
      | .ok fm =>
        .ok { groupIds := p.1, colNames := outCols p.1,
              rows := accumulate p.1 (mergeInner (zeroComments cs) fm) }

/-! Concrete input fixtures used by the theorems below. -/

/-- A row holding one vote: value `v` under column `col`, NaN elsewhere. -/
def oneCell (col : String) (v : ℤ) : String → Val :=
  fun s => if s = col then some v else none

/-- The spec's scenario votes table: two participants, both in group 1, one
comment column `"101"` with values `1` and `-1`. -/
def scenV : VotesTable :=
  { cols := ["101"],
    rows := [{ groupId := .val 1, cell := oneCell "101" 1 },
             { groupId := .val 1, cell := oneCell "101" (-1) }] }

/-- The spec's scenario comments table: one comment with id 101. -/
def scenCt : CommentsTable :=
  { rows := [{ commentId := .val 101, text := "c101",
               agrees := some 0, disagrees := some 0, passes := some 0 }] }

/-- Votes table whose melted pairs leave (comment 0, group 1) with no vote at
all: participant in group 0 votes agree on comment 0 and disagree on comment 1,
participant in group 1 votes pass on comment 1 only. -/
def denseV : VotesTable :=
  { cols := ["0", "1"],
    rows := [{ groupId := .val 0,
               cell := fun s => if s = "0" then some 1 else
                                if s = "1" then some (-1) else none },
             { groupId := .val 1, cell := oneCell "1" 0 }] }

/-- Comments table with comments 0 and 1. -/
def denseCt : CommentsTable :=
  { rows := [{ commentId := .val 0, text := "a",
               agrees := some 0, disagrees := some 0, passes := some 0 },
             { commentId := .val 1, text := "b",
               agrees := some 0, disagrees := some 0, passes := some 0 }] }

/-- Votes table with two numeric columns where comment `"1"` receives no vote
of any kind: three group-0 participants vote agree, disagree, pass on
comment `"0"` and nothing on comment `"1"`. -/
def unvotedV : VotesTable :=
  { cols := ["0", "1"],
    rows := [{ groupId := .val 0, cell := oneCell "0" 1 },
             { groupId := .val 0, cell := oneCell "0" (-1) },
             { groupId := .val 0, cell := oneCell "0" 0 }] }

/-- Votes table for the totals witness: three group-0 participants vote
agree, disagree, pass on comment `"0"`. -/
def totV : VotesTable :=
  { cols := ["0"],
    rows := [{ groupId := .val 0, cell := oneCell "0" 1 },
             { groupId := .val 0, cell := oneCell "0" (-1) },
             { groupId := .val 0, cell := oneCell "0" 0 }] }

/-- Comments table for the totals witness, with stale input totals. -/
def totCt : CommentsTable :=
  { rows := [{ commentId := .val 0, text := "a",
               agrees := some 7, disagrees := some 8, passes := some 9 }] }

/-- The output the pipeline produces on `totV`/`totCt`. -/
def totOut : Output :=
  { groupIds := [0], colNames := outCols [0],
    rows := [{ commentId := 0, text := "a", agrees := some 1,
               disagrees := some 1, passes := some 1,
               counts := [⟨0, some 1, some 1, some 1⟩] }] }

/-! Lemmas about the accumulation loop. -/

/-- The per-row effect of running the whole accumulation loop. -/
def applyG (gids : List ℤ) (r : MRow) : MRow :=
  gids.foldl (fun r g => addG g r) r

theorem accumulate_eq_map (gids : List ℤ) : ∀ rows : List MRow,
    accumulate gids rows = rows.map (applyG gids) := by
  induction gids with
  | nil =>
    intro rows
    have h0 : applyG [] = id := rfl
    rw [h0, List.map_id]
    rfl
  | cons g gs ih =>
    intro rows
    have h1 : accumulate (g :: gs) rows = accumulate gs (rows.map (addG g)) := rfl
    rw [h1, ih, List.map_map]
    rfl

theorem applyG_counts (gids : List ℤ) : ∀ r : MRow,
    (applyG gids r).counts = r.counts := by
  induction gids with
  | nil => intro r; rfl
  | cons g gs ih => intro r; exact ih (addG g r)

theorem applyG_agrees (gids : List ℤ) : ∀ r : MRow,
    (applyG gids r).agrees =
      vFold r.agrees (gids.map fun g => countAt r.counts g .agree) := by
  induction gids with
  | nil => intro r; rfl
  | cons g gs ih =>
    intro r
    have h1 : applyG (g :: gs) r = applyG gs (addG g r) := rfl
    rw [h1, ih (addG g r)]
    rfl

theorem applyG_disagrees (gids : List ℤ) : ∀ r : MRow,
    (applyG gids r).disagrees =
      vFold r.disagrees (gids.map fun g => countAt r.counts g .disagree) := by
  induction gids with
  | nil => intro r; rfl
  | cons g gs ih =>
    intro r
    have h1 : applyG (g :: gs) r = applyG gs (addG g r) := rfl
    rw [h1, ih (addG g r)]
    rfl

theorem applyG_passes (gids : List ℤ) : ∀ r : MRow,
    (applyG gids r).passes =
      vFold r.passes (gids.map fun g => countAt r.counts g .pass) := by
  induction gids with
  | nil => intro r; rfl
  | cons g gs ih =>
    intro r
    have h1 : applyG (g :: gs) r = applyG gs (addG g r) := rfl
    rw [h1, ih (addG g r)]
    rfl

theorem mem_mergeInner_zeroed {cs : List CRow} {fms : List FMRow} {r : MRow}
    (h : r ∈ mergeInner (zeroComments cs) fms) :
    r.agrees = some 0 ∧ r.disagrees = some 0 ∧ r.passes = some 0 := by
  simp only [mergeInner, zeroComments, List.mem_flatMap, List.mem_map,
    List.mem_filter] at h
  obtain ⟨c, ⟨c0, _, rfl⟩, f, _, rfl⟩ := h
  exact ⟨rfl, rfl, rfl⟩

theorem pipeline_ok_rows {v : VotesTable} {ct : CommentsTable} {out : Output}
    (h : pipeline v ct = .ok out) :
    ∃ cs fm, out.rows = accumulate out.groupIds (mergeInner (zeroComments cs) fm) := by
  unfold pipeline at h
  rcases hcc : coerceComments ct.rows with e | cs <;> rw [hcc] at h <;> dsimp only at h
  · cases h
  rcases hnv : normalizeVotes v with e | p <;> rw [hnv] at h <;> dsimp only at h
  · cases h
  rcases hw : widen p.2 p.1 with e | fm <;> rw [hw] at h <;> dsimp only at h
  · cases h
  cases h
  exact ⟨cs, fm, rfl⟩

/-- C1: when the pipeline produces an output, each output row's `agrees` cell
equals the NaN-propagating sum, over the discovered group ids, of that row's
`group-{g}-agree-count` cells, and likewise `disagrees` and `passes` for the
disagree and pass count cells. -/
theorem merged_totals_eq_group_sums (v : VotesTable) (ct : CommentsTable)
    (out : Output) (h : pipeline v ct = .ok out) :
    ∀ r ∈ out.rows,
      r.agrees = vFold (some 0) (out.groupIds.map fun g => countAt r.counts g .agree) ∧
      r.disagrees = vFold (some 0) (out.groupIds.map fun g => countAt r.counts g .disagree) ∧
      r.passes = vFold (some 0) (out.groupIds.map fun g => countAt r.counts g .pass) := by
  obtain ⟨cs, fm, hrows⟩ := pipeline_ok_rows h
  intro r hr
  rw [hrows, accumulate_eq_map] at hr
  obtain ⟨r0, hr0, rfl⟩ := List.mem_map.mp hr
  obtain ⟨ha, hd, hp⟩ := mem_mergeInner_zeroed hr0
  refine ⟨?_, ?_, ?_⟩
  · rw [applyG_agrees, ha, applyG_counts]
  · rw [applyG_disagrees, hd, applyG_counts]
  · rw [applyG_passes, hp, applyG_counts]

/-- C1 witness: the totals property observed on a concrete successful run. -/
theorem merged_totals_eq_group_sums_witness :
    pipeline totV totCt = .ok totOut ∧
      ∀ r ∈ totOut.rows,
        r.agrees = vFold (some 0) (totOut.groupIds.map fun g => countAt r.counts g .agree) ∧
        r.disagrees = vFold (some 0) (totOut.groupIds.map fun g => countAt r.counts g .disagree) ∧
        r.passes = vFold (some 0) (totOut.groupIds.map fun g => countAt r.counts g .pass) :=
  ⟨rfl, merged_totals_eq_group_sums totV totCt totOut rfl⟩

/-- C4: on the spec's scenario (two participants in group 1, comment "101"
with votes 1 and -1, comments table with comment 101) the script does not
produce the expected output row at all: `pivoted['disagree-count'][0.0]`
raises a KeyError because no participant is in group 0, and the process dies
before writing anything. -/
theorem scenario_group1_raises_keyerror :
    pipeline scenV scenCt = .error "KeyError: 0.0" := rfl

/-- C3: on `denseV`/`denseCt` the pipeline succeeds, but the
(comment 0, group 1) combination — which received no vote of any kind —
carries NaN (`none`) in all three `group-1-*-count` output cells, not the
explicit zeros the claim requires: `pivot` fills unobserved pairs with NaN
and nothing re-densifies them. -/
theorem densification_gap_yields_missing :
    (pipeline denseV denseCt).map (fun o => o.rows.map fun r => (r.commentId, r.counts)) =
      .ok [(0, [⟨0, some 0, some 0, some 1⟩, ⟨1, none, none, none⟩]),
           (1, [⟨0, some 1, some 0, some 0⟩, ⟨1, some 0, some 1, some 0⟩])] := rfl

/-- C5: the widened table's row index is not anchored on the discovered
comment-id domain: column `"1"` of `unvotedV` is a discovered comment id, but
having no votes it is absent from `pivoted['disagree-count'][0.0].index`, so
`for_merge` has a row for comment 0 only. -/
theorem widened_index_drops_unvoted_comment :
    unvotedV.cols.filter isNumericStr = ["0", "1"] ∧
      (widenFromTable unvotedV).map (fun l => l.map fun f => f.commentId) =
        .ok [0] :=
  ⟨rfl, rfl⟩

/-! Lemmas about the aggregation counts (C2). -/

theorem counts_split (m : List MeltEntry) (c g : ℤ)
    (hval : ∀ e ∈ m,
      e.value = none ∨ e.value = some (-1) ∨ e.value = some 0 ∨ e.value = some 1) :
    countVal m c g (-1) + countVal m c g 0 + countVal m c g 1 =
      m.countP fun e => decide (e.commentId = c ∧ e.groupId = g ∧ e.value.isSome) := by
  induction m with
  | nil => rfl
  | cons e t ih =>
    have hv := hval e (by simp)
    have ht : ∀ x ∈ t,
        x.value = none ∨ x.value = some (-1) ∨ x.value = some 0 ∨ x.value = some 1 :=
      fun x hx => hval x (by simp [hx])
    have iht := ih ht
    have d1 : ((-1 : ℤ)) ≠ 0 := by decide
    have d2 : ((-1 : ℤ)) ≠ 1 := by decide
    have d3 : ((0 : ℤ)) ≠ -1 := by decide
    have d4 : ((0 : ℤ)) ≠ 1 := by decide
    have d5 : ((1 : ℤ)) ≠ -1 := by decide
    have d6 : ((1 : ℤ)) ≠ 0 := by decide
    by_cases hc : e.commentId = c <;> by_cases hg : e.groupId = g <;>
      rcases hv with h | h | h | h <;>
        simp only [countVal, List.countP_cons] at iht ⊢ <;>
          simp [h, hc, hg, d1, d2, d3, d4, d5, d6] at iht ⊢ <;> omega

theorem countP_flatMap_sum {α β : Type} (l : List α) (f : α → List β) (p : β → Bool) :
    (l.flatMap f).countP p = (l.map fun a => (f a).countP p).sum := by
  induction l with
  | nil => rfl
  | cons a t ih => simp [List.countP_append, ih]

theorem countP_meltVotes_col (gv : List GVRow) (cids : List String) (ccol : String)
    (g : ℤ) (hnd : (cids.map fun s => (natOfDigits s : ℤ)).Nodup) (hcol : ccol ∈ cids) :
    (meltVotes cids gv).countP
        (fun e => decide (e.commentId = (natOfDigits ccol : ℤ) ∧ e.groupId = g ∧ e.value.isSome)) =
      gv.countP fun p => decide (p.1 = g ∧ (p.2 ccol).isSome) := by
  induction cids with
  | nil => cases hcol
  | cons x t ih =>
    simp only [List.map_cons, List.nodup_cons] at hnd
    have hstep : meltVotes (x :: t) gv =
        (gv.map fun p => MeltEntry.mk p.1 ((natOfDigits x : ℤ)) (p.2 x)) ++ meltVotes t gv := rfl
    rw [hstep, List.countP_append]
    have hmap : ∀ col : String,
        (gv.map fun p => MeltEntry.mk p.1 ((natOfDigits col : ℤ)) (p.2 col)).countP
            (fun e => decide (e.commentId = (natOfDigits ccol : ℤ) ∧ e.groupId = g ∧ e.value.isSome)) =
          gv.countP fun p =>
            decide ((natOfDigits col : ℤ) = (natOfDigits ccol : ℤ) ∧ p.1 = g ∧ (p.2 col).isSome) := by
      intro col
      rw [List.countP_map]
      rfl
    rcases List.mem_cons.mp hcol with hcx | hct
    · -- the head column is the queried one; every tail column has a different id
      have htail : (meltVotes t gv).countP
          (fun e => decide (e.commentId = (natOfDigits ccol : ℤ) ∧ e.groupId = g ∧ e.value.isSome)) = 0 := by
        rw [meltVotes, countP_flatMap_sum]
        apply List.sum_eq_zero
        intro n hn
        obtain ⟨col, hcolt, rfl⟩ := List.mem_map.mp hn
        have hne : (natOfDigits col : ℤ) ≠ (natOfDigits ccol : ℤ) := by
          intro hEq
          apply hnd.1
          rw [← hcx, ← hEq]
          exact List.mem_map_of_mem (fun s => (natOfDigits s : ℤ)) hcolt
        rw [List.countP_map, List.countP_eq_zero]
        intro p _
        simp [Function.comp, hne]
      rw [hmap x, htail, ← hcx]
      have htrue : (gv.countP fun p =>
          decide ((natOfDigits ccol : ℤ) = (natOfDigits ccol : ℤ) ∧ p.1 = g ∧ (p.2 ccol).isSome)) =
            gv.countP fun p => decide (p.1 = g ∧ (p.2 ccol).isSome) := by
        apply List.countP_congr
        intro p _
        simp
      rw [htrue]
      exact Nat.add_zero _
    · -- the head column differs from the queried one
      have hxne : (natOfDigits x : ℤ) ≠ (natOfDigits ccol : ℤ) := by
        intro hEq
        exact hnd.1 (hEq ▸ List.mem_map_of_mem (fun s => (natOfDigits s : ℤ)) hct)
      rw [hmap x]
      have hzero : (gv.countP fun p =>
          decide ((natOfDigits x : ℤ) = (natOfDigits ccol : ℤ) ∧ p.1 = g ∧ (p.2 x).isSome)) = 0 := by
        rw [List.countP_eq_zero]
        intro p _
        simp [hxne]
      rw [hzero, ih hnd.2 hct]
      exact Nat.zero_add _

/-- C2: for a pair produced by the aggregation, the disagree, pass and agree
counts add up to the number of surviving participants of that group whose
cell in the queried comment column is non-missing — NaN cells (kept by the
melt, dropped by `value_counts`) contribute to none of the three counts. -/
theorem pair_counts_eq_cast_votes (gv : List GVRow) (cids : List String)
    (ccol : String) (g : ℤ)
    (hnd : (cids.map fun s => (natOfDigits s : ℤ)).Nodup)
    (hcol : ccol ∈ cids)
    (hval : ∀ e ∈ meltVotes cids gv,
      e.value = none ∨ e.value = some (-1) ∨ e.value = some 0 ∨ e.value = some 1)
    (_hobs : observedPair (meltVotes cids gv) (natOfDigits ccol) g = true) :
    countVal (meltVotes cids gv) (natOfDigits ccol) g (-1) +
        countVal (meltVotes cids gv) (natOfDigits ccol) g 0 +
        countVal (meltVotes cids gv) (natOfDigits ccol) g 1 =
      gv.countP fun p => decide (p.1 = g ∧ (p.2 ccol).isSome) := by
  rw [counts_split _ _ _ hval, countP_meltVotes_col gv cids ccol g hnd hcol]

/-- Vote rows for the C2 witness: in group 1 one agree, one disagree and one
participant who did not vote on "101"; a group-2 participant passes. -/
def c2gv : List GVRow :=
  [(1, oneCell "101" 1), (1, oneCell "101" (-1)), (1, fun _ => none),
   (2, oneCell "101" 0)]

/-- C2 witness: on the concrete rows the three counts for (101, group 1) sum
to 2, the number of group-1 participants with a non-missing cell. -/
theorem pair_counts_eq_cast_votes_witness :
    observedPair (meltVotes ["101"] c2gv) (natOfDigits "101") 1 = true ∧
      countVal (meltVotes ["101"] c2gv) (natOfDigits "101") 1 (-1) +
          countVal (meltVotes ["101"] c2gv) (natOfDigits "101") 1 0 +
          countVal (meltVotes ["101"] c2gv) (natOfDigits "101") 1 1 =
        c2gv.countP fun p => decide (p.1 = 1 ∧ (p.2 "101").isSome) :=
  ⟨by decide, pair_counts_eq_cast_votes c2gv ["101"] "101" 1 (by decide) (by decide)
    (by decide) (by decide)⟩

/-! The merge is an inner join (C6). -/

theorem filter_key_length (fms : List FMRow) (k : ℤ)
    (h2 : (fms.map fun f => f.commentId).Nodup) :
    (fms.filter fun f => decide (f.commentId = k)).length =
      if k ∈ fms.map (fun f => f.commentId) then 1 else 0 := by
  induction fms with
  | nil => simp
  | cons f t ih =>
    simp only [List.map_cons, List.nodup_cons] at h2
    by_cases hf : f.commentId = k
    · rw [List.filter_cons_of_pos (by simp [hf])]
      have hnot : k ∉ t.map fun f => f.commentId := hf ▸ h2.1
      rw [List.length_cons, ih h2.2, if_neg hnot, if_pos (by simp [hf])]
    · rw [List.filter_cons_of_neg (by simp [hf]), ih h2.2]
      have hmem : (k ∈ (f :: t).map fun f => f.commentId) ↔
          (k ∈ t.map fun f => f.commentId) := by
        simp [List.mem_cons]
        intro hk
        exact absurd hk.symm hf
      by_cases hk : k ∈ t.map fun f => f.commentId
      · rw [if_pos hk, if_pos (hmem.mpr hk)]
      · rw [if_neg hk, if_neg (fun hx => hk (hmem.mp hx))]

/-- C6: the merge of the widened tallies onto the comments table is an inner
join on comment id — when comment ids are unique on both sides, the merged
table has exactly one row with key `k` when `k` occurs on both sides, and none
when `k` is missing from either side (silently, with no error). -/
theorem merge_is_inner_join_on_comment_id (cs : List CRow) (fms : List FMRow)
    (k : ℤ) (h1 : (cs.map fun c => c.commentId).Nodup)
    (h2 : (fms.map fun f => f.commentId).Nodup) :
    (mergeInner cs fms).countP (fun r => decide (r.commentId = k)) =
      if k ∈ cs.map (fun c => c.commentId) ∧ k ∈ fms.map (fun f => f.commentId)
      then 1 else 0 := by
  induction cs with
  | nil => simp [mergeInner]
  | cons c t ih =>
    simp only [List.map_cons, List.nodup_cons] at h1
    have hmc : mergeInner (c :: t) fms =
        ((fms.filter fun f => decide (f.commentId = c.commentId)).map (combineRows c))
          ++ mergeInner t fms := rfl
    rw [hmc, List.countP_append, ih h1.2]
    have hhead : ((fms.filter fun f => decide (f.commentId = c.commentId)).map
        (combineRows c)).countP (fun r => decide (r.commentId = k)) =
          if c.commentId = k
          then (if k ∈ fms.map (fun f => f.commentId) then 1 else 0) else 0 := by
      rw [List.countP_map]
      by_cases hck : c.commentId = k
      · rw [if_pos hck, ← filter_key_length fms k h2, ← hck]
        have h3 : (fms.filter fun f => decide (f.commentId = c.commentId)).countP
            ((fun r : MRow => decide (r.commentId = c.commentId)) ∘ combineRows c) =
              (fms.filter fun f => decide (f.commentId = c.commentId)).countP
                (fun _ => true) :=
          List.countP_congr (fun f _ => iff_of_true (decide_eq_true rfl) rfl)
        rw [h3]
        simp
      · rw [if_neg hck, List.countP_eq_zero]
        intro f _ hcontra
        exact hck (of_decide_eq_true hcontra)
    rw [hhead]
    by_cases hck : c.commentId = k
    · subst hck
      have hmem : c.commentId ∈ (c :: t).map (fun c => c.commentId) := by simp
      simp [h1.1, hmem]
    · have hck2 : k ≠ c.commentId := fun hx => hck hx.symm
      simp [hck, hck2]

/-- Comments-side rows for the C6 witness. -/
def c6cs : List CRow :=
  [{ commentId := 5, text := "x", agrees := some 0, disagrees := some 0, passes := some 0 },
   { commentId := 7, text := "y", agrees := some 0, disagrees := some 0, passes := some 0 }]

/-- Widened-side rows for the C6 witness: keys 5 and 9. -/
def c6fms : List FMRow :=
  [{ commentId := 5, counts := [] }, { commentId := 9, counts := [] }]

/-- C6 witness: key 5 is on both sides and appears exactly once in the merge. -/
theorem merge_is_inner_join_on_comment_id_witness :
    (c6cs.map fun c => c.commentId).Nodup ∧
      (mergeInner c6cs c6fms).countP (fun r => decide (r.commentId = 5)) =
        if 5 ∈ c6cs.map (fun c => c.commentId) ∧ 5 ∈ c6fms.map (fun f => f.commentId)
        then 1 else 0 :=
  ⟨by decide, merge_is_inner_join_on_comment_id c6cs c6fms 5 (by decide) (by decide)⟩

/-! Null-group rows are dropped (C7). -/

/-- C7: inserting a vote row whose `group-id` cell is null anywhere in the
votes table leaves the pipeline's result unchanged (the `notna` filter drops
it before anything else looks at it), and is not an error. -/
theorem null_group_row_is_ignored (cols : List String) (pre post : List VRow)
    (r : VRow) (h : r.groupId = .missing) (ct : CommentsTable) :
    pipeline ⟨cols, pre ++ r :: post⟩ ct = pipeline ⟨cols, pre ++ post⟩ ct := by
  have hf : filterVotes (pre ++ r :: post) = filterVotes (pre ++ post) := by
    simp [filterVotes, List.filter_append, h, RawId.isNA]
  have hn : normalizeVotes ⟨cols, pre ++ r :: post⟩ = normalizeVotes ⟨cols, pre ++ post⟩ := by
    simp only [normalizeVotes]
    rw [hf]
  simp only [pipeline]
  rw [hn]

/-- A null-group row casting a vote on comment "0". -/
def nullRow : VRow :=
  { groupId := .missing, cell := oneCell "0" 1 }

/-- C7 witness: the concrete equality at a one-row insertion. -/
theorem null_group_row_is_ignored_witness :
    nullRow.groupId = RawId.missing ∧
      pipeline ⟨["0"], [nullRow]⟩ ⟨[]⟩ = pipeline ⟨["0"], []⟩ ⟨[]⟩ :=
  ⟨rfl, null_group_row_is_ignored ["0"] [] [] nullRow rfl ⟨[]⟩⟩

/-! Id coercion failures kill the run (C8). -/

theorem coerceComments_err {l : List CommentRowIn}
    (h : ∃ r ∈ l, r.commentId.toInt? = none) :
    ∃ e, coerceComments l = .error e := by
  induction l with
  | nil => obtain ⟨r, hr, _⟩ := h; cases hr
  | cons r t ih =>
    rcases hri : r.commentId.toInt? with _ | n
    · exact ⟨"ValueError: invalid literal for comment-id astype(int)",
        by simp [coerceComments, hri]⟩
    · obtain ⟨x, hx, hxn⟩ := h
      rcases List.mem_cons.mp hx with rfl | hxt
      · rw [hri] at hxn; cases hxn
      · obtain ⟨e, he⟩ := ih ⟨x, hxt, hxn⟩
        exact ⟨e, by simp [coerceComments, hri, he]⟩

theorem coerceVotes_err {l : List VRow}
    (h : ∃ r ∈ l, r.groupId.toInt? = none) :
    ∃ e, coerceVotes l = .error e := by
  induction l with
  | nil => obtain ⟨r, hr, _⟩ := h; cases hr
  | cons r t ih =>
    rcases hri : r.groupId.toInt? with _ | n
    · exact ⟨"ValueError: invalid literal for group-id astype(int)",
        by simp [coerceVotes, hri]⟩
    · obtain ⟨x, hx, hxn⟩ := h
      rcases List.mem_cons.mp hx with rfl | hxt
      · rw [hri] at hxn; cases hxn
      · obtain ⟨e, he⟩ := ih ⟨x, hxt, hxn⟩
        exact ⟨e, by simp [coerceVotes, hri, he]⟩

/-- C8: if any comments-table comment-id, or any surviving (non-null)
votes-table group-id, is not coercible to an integer, the pipeline terminates
with an error and produces no output — the offending row is never silently
dropped. -/
theorem bad_id_coercion_fails_loudly (v : VotesTable) (ct : CommentsTable)
    (h : (∃ r ∈ ct.rows, r.commentId.toInt? = none) ∨
         (∃ r ∈ filterVotes v.rows, r.groupId.toInt? = none)) :
    ∃ e, pipeline v ct = .error e := by
  rcases hcc : coerceComments ct.rows with e | cs
  · exact ⟨e, by simp [pipeline, hcc]⟩
  · rcases h with h | h
    · obtain ⟨e, he⟩ := coerceComments_err h
      rw [hcc] at he
      cases he
    · obtain ⟨e, he⟩ := coerceVotes_err h
      exact ⟨e, by simp [pipeline, hcc, normalizeVotes, he]⟩

/-- Comments table with a non-coercible comment-id. -/
def badCt : CommentsTable :=
  { rows := [{ commentId := .bad, text := "z",
               agrees := some 0, disagrees := some 0, passes := some 0 }] }

/-- C8 witness: a non-numeric comment-id makes the concrete run error out. -/
theorem bad_id_coercion_fails_loudly_witness :
    (∃ r ∈ badCt.rows, r.commentId.toInt? = none) ∧
      ∃ e, pipeline ⟨[], []⟩ badCt = .error e :=
  ⟨by decide, bad_id_coercion_fails_loudly ⟨[], []⟩ badCt (Or.inl (by decide))⟩

/-! Determinism (C9). -/

/-- C9: the pipeline is a pure function of its two input tables — equal
inputs give equal outputs (same rows, same column names in the same order,
same cells), so a re-run on identical inputs reproduces the output exactly. -/
theorem pipeline_deterministic (v1 v2 : VotesTable) (ct1 ct2 : CommentsTable)
    (hv : v1 = v2) (hc : ct1 = ct2) : pipeline v1 ct1 = pipeline v2 ct2 := by
  rw [hv, hc]

/-- C9 witness: two runs on the same concrete inputs agree. -/
theorem pipeline_deterministic_witness :
    totV = totV ∧ pipeline totV totCt = pipeline totV totCt :=
  ⟨rfl, pipeline_deterministic totV totV totCt totCt rfl rfl⟩

/-! The group-0 anchor (C10). -/

theorem toInt?_some {r : RawId} {n : ℤ} (h : r.toInt? = some n) : r = .val n := by
  cases r with
  | val m => cases h; rfl
  | missing => cases h
  | bad => cases h

theorem coerceVotes_ok_groups {l : List VRow} {gv : List GVRow}
    (h : coerceVotes l = .ok gv) : ∀ p ∈ gv, ∃ r ∈ l, r.groupId = .val p.1 := by
  induction l generalizing gv with
  | nil =>
    cases h
    intro p hp
    cases hp
  | cons r t ih =>
    rcases hri : r.groupId.toInt? with _ | g
    · rw [coerceVotes, hri] at h
      cases h
    · rcases htl : coerceVotes t with e | tl
      · rw [coerceVotes, hri, htl] at h
        cases h
      · rw [coerceVotes, hri, htl] at h
        cases h
        intro p hp
        rcases List.mem_cons.mp hp with rfl | hpt
        · exact ⟨r, by simp, toInt?_some hri⟩
        · obtain ⟨r2, hr2, hg2⟩ := ih htl p hpt
          exact ⟨r2, by simp [hr2], hg2⟩

theorem mem_meltVotes_group {cids : List String} {gv : List GVRow} {e : MeltEntry}
    (h : e ∈ meltVotes cids gv) : ∃ p ∈ gv, e.groupId = p.1 := by
  rw [meltVotes, List.mem_flatMap] at h
  obtain ⟨col, _, hm⟩ := h
  obtain ⟨p, hp, rfl⟩ := List.mem_map.mp hm
  exact ⟨p, hp, rfl⟩

/-- C10: when no surviving vote row is in group 0, the widening stage's
`pivoted['disagree-count'][0.0]` lookup (or an earlier missing-column lookup)
raises, so the pipeline terminates with an error and yields no output — it can
only succeed when group 0 is among the discovered group ids. -/
theorem missing_group_zero_fails (v : VotesTable) (ct : CommentsTable)
    (h : ∀ r ∈ filterVotes v.rows, r.groupId ≠ .val 0) :
    ∃ e, pipeline v ct = .error e := by
  rcases hcc : coerceComments ct.rows with e | cs
  · exact ⟨e, by simp [pipeline, hcc]⟩
  rcases hcv : coerceVotes (filterVotes v.rows) with e | gv
  · exact ⟨e, by simp [pipeline, hcc, normalizeVotes, hcv]⟩
  have hobs : observedGroup (meltVotes (v.cols.filter isNumericStr) gv) 0 = false := by
    cases hb : observedGroup (meltVotes (v.cols.filter isNumericStr) gv) 0
    · rfl
    · exfalso
      rw [observedGroup, List.any_eq_true] at hb
      obtain ⟨e0, he0, hpe⟩ := hb
      rw [decide_eq_true_eq] at hpe
      obtain ⟨p, hp, hg⟩ := mem_meltVotes_group he0
      obtain ⟨r, hr, hrg⟩ := coerceVotes_ok_groups hcv p hp
      apply h r hr
      rw [hrg, ← hg, hpe.1]
  cases hoc : occursVal (meltVotes (v.cols.filter isNumericStr) gv) (-1)
  · exact ⟨"KeyError: disagree-count",
      by simp [pipeline, hcc, normalizeVotes, hcv, widen, hoc]⟩
  · exact ⟨"KeyError: 0.0",
      by simp [pipeline, hcc, normalizeVotes, hcv, widen, hoc, hobs]⟩

/-- Votes table whose only participant is in group 2. -/
def noZeroV : VotesTable :=
  { cols := ["7"], rows := [{ groupId := .val 2, cell := oneCell "7" 1 }] }

/-- C10 witness: the concrete no-group-0 run errors out. -/
theorem missing_group_zero_fails_witness :
    (∀ r ∈ filterVotes noZeroV.rows, r.groupId ≠ RawId.val 0) ∧
      ∃ e, pipeline noZeroV ⟨[]⟩ = .error e :=
  ⟨by decide, missing_group_zero_fails noZeroV ⟨[]⟩ (by decide)⟩

end Polis
